import Mathlib

/-!
Verification of the response-parsing and file-classification engine of the
`sse_crawler` repository (`src/sse/sse.rs`, `src/main.rs`).

Strings are modelled as `List Char`; JSON values (the result of
`serde_json::from_str`) as the inductive `Json`; fallible Rust code returns
`RResult`, whose `err` constructor models an `anyhow::Error` return and whose
`panic` constructor models a Rust panic (`unwrap` on `None`, slice index out
of range, arithmetic underflow with overflow checks, …).

Paths (`std::path::PathBuf`) are modelled as strings with `/`-separated
components; `rsPush` models `PathBuf::push` for the relative, non-empty
arguments the program uses, and `rsSetExtPdf` models
`PathBuf::set_extension("pdf")` on paths whose last component is an ordinary
file name.
-/

set_option maxHeartbeats 1000000

namespace SseCrawler

/-- Rust strings, modelled as lists of unicode scalar values. -/
abbrev Str := List Char

/-- Membership test for the delimiter set `['(', ')']` used by
`split_inclusive` in all three parsers. -/
def isParenChar (c : Char) : Bool :=
  c = '(' || c = ')'

/-- Helper for `splitInclusive`: `acc` holds the (reversed) characters of the
current chunk. -/
def splitInclusiveAux (p : Char → Bool) : Str → Str → List Str
  | [], acc => if acc = [] then [] else [acc.reverse]
  | c :: rest, acc =>
    if p c then (acc.reverse ++ [c]) :: splitInclusiveAux p rest []
    else splitInclusiveAux p rest (c :: acc)

/-- Model of Rust `str::split_inclusive` with a character-set pattern: each
chunk ends with a matched delimiter, except possibly the final chunk; the
empty string yields no chunks. -/
def splitInclusive (p : Char → Bool) (s : Str) : List Str :=
  splitInclusiveAux p s []

/-- Panic outcomes of the JSONP-unwrapping code. -/
inductive RsPanic where
  /-- `pure_content[1..]` with `pure_content` empty: slice range out of bounds. -/
  | sliceIndex
  /-- `json_str.len() - 1` with `json_str` empty, under overflow checks. -/
  | subOverflow
  /-- `truncate` at a byte index that is not a character boundary. -/
  | charBoundary
  deriving DecidableEq, Repr

/-- Model of the JSONP-unwrap step shared verbatim by `CompanyInfo::try_from`
(lines 87-90), `InfoDisclosure::try_from` (lines 202-205) and
`MeetingAnnounce::new` (lines 459-462):

    let pure_content: Vec<_> = resp.split_inclusive(&['(', ')'][..]).collect();
    let mut json_str = format!(r#"{}"#, pure_content[1..].join(""));
    json_str.truncate(json_str.len() - 1);

`overflowChecks` selects the Rust build profile semantics for the
`json_str.len() - 1` subtraction when `json_str` is empty (panic with checks
on, wrap to `usize::MAX` — making `truncate` a no-op — with checks off).
`truncate` takes a byte index; `json_str.len() - 1` is a character boundary
exactly when the final character is a single-byte one, otherwise `truncate`
panics. -/
def jsonpUnwrap (overflowChecks : Bool) (resp : Str) : Except RsPanic Str :=
  match splitInclusive isParenChar resp with
  | [] => .error .sliceIndex
  | _ :: rest =>
    let json := rest.flatten
    match json.getLast? with
    | none => if overflowChecks then .error .subOverflow else .ok []
    | some c => if c.utf8Size = 1 then .ok json.dropLast else .error .charBoundary

theorem splitInclusiveAux_append_of_no_delim (p : Char → Bool) (cs : Str)
    (hcs : ∀ c ∈ cs, p c = false) :
    ∀ (s acc : Str), splitInclusiveAux p (cs ++ s) acc
      = splitInclusiveAux p s (cs.reverse ++ acc) := by
  induction cs with
  | nil => intro s acc; simp
  | cons c cs ih =>
    intro s acc
    have hc : p c = false := hcs c (List.mem_cons_self ..)
    have hrest : ∀ x ∈ cs, p x = false := fun x hx => hcs x (List.mem_cons_of_mem _ hx)
    simp only [List.cons_append, splitInclusiveAux, hc, Bool.false_eq_true, if_false]
    rw [show cs.append s = cs ++ s from rfl, ih hrest]
    simp

theorem splitInclusiveAux_flatten (p : Char → Bool) :
    ∀ (s acc : Str), (splitInclusiveAux p s acc).flatten = acc.reverse ++ s := by
  intro s
  induction s with
  | nil =>
    intro acc
    by_cases h : acc = [] <;> simp [splitInclusiveAux, h]
  | cons c rest ih =>
    intro acc
    by_cases h : p c
    · simp [splitInclusiveAux, h, ih]
    · simp [splitInclusiveAux, h, ih]

theorem splitInclusive_flatten (p : Char → Bool) (s : Str) :
    (splitInclusive p s).flatten = s := by
  simpa using splitInclusiveAux_flatten p s []

/-- On a response of the shape `cb ++ "(" ++ json ++ ")"` with `cb` free of
parentheses, the chunk list starts with `cb ++ "("` and the remaining chunks
cover exactly `json ++ ")"`. -/
theorem splitInclusive_envelope (cb json : Str)
    (hcb : ∀ c ∈ cb, isParenChar c = false) :
    splitInclusive isParenChar (cb ++ '(' :: (json ++ [')']))
      = (cb ++ ['(']) :: splitInclusive isParenChar (json ++ [')']) := by
  unfold splitInclusive
  rw [splitInclusiveAux_append_of_no_delim isParenChar cb hcb]
  simp [splitInclusiveAux, isParenChar]

/-- C3: for every response of the form `callbackName(json)` with nothing after
the final closing parenthesis — where `json` may itself contain literal `(`
and `)` characters — the JSONP-unwrap step used by all three parsers yields
exactly `json`, character for character, in both build profiles. -/
theorem jsonpUnwrap_envelope_exact (overflowChecks : Bool) (cb json : Str)
    (hcb : ∀ c ∈ cb, isParenChar c = false) :
    jsonpUnwrap overflowChecks (cb ++ '(' :: (json ++ [')'])) = .ok json := by
  unfold jsonpUnwrap
  rw [splitInclusive_envelope cb json hcb]
  have hflat : (splitInclusive isParenChar (json ++ [')'])).flatten = json ++ [')'] :=
    splitInclusive_flatten _ _
  simp only [hflat]
  have hlast : (json ++ [')']).getLast? = some ')' := by
    simp [List.getLast?_append]
  simp only [hlast]
  have hsize : (')').utf8Size = 1 := by decide
  simp [hsize]

/-- Witness for C3 on the concrete envelope
`jsonpCallback42305({"fileTitle":"回复(修订稿)"})`: the payload, whose string
value contains a `(`/`)` pair, is recovered exactly. -/
theorem jsonpUnwrap_envelope_exact_witness :
    jsonpUnwrap true ("jsonpCallback42305".data ++ '(' ::
        ("\x7b\"fileTitle\":\"回复(修订稿)\"\x7d".data ++ [')']))
      = .ok "\x7b\"fileTitle\":\"回复(修订稿)\"\x7d".data :=
  jsonpUnwrap_envelope_exact true "jsonpCallback42305".data
    "\x7b\"fileTitle\":\"回复(修订稿)\"\x7d".data (by decide)

/-- C4 counterexample: the empty response contains no `(`/`)` pair, and the
unwrap step does not return an ordinary error value — it panics (slice range
`[1..]` out of bounds on an empty chunk vector), in both build profiles. -/
theorem jsonpUnwrap_empty_panics :
    jsonpUnwrap true [] = .error .sliceIndex
      ∧ jsonpUnwrap false [] = .error .sliceIndex := by
  constructor <;> rfl

/-- C4 as amended: on a response containing neither `(` nor `)` the unwrap
step never produces a `MalformedEnvelope`-style error value: the empty
response panics with a slice-index error; a non-empty such response panics on
`usize` underflow when overflow checks are enabled, and with checks disabled
yields the empty payload (which is not valid JSON, so the subsequent
deserialization — not the unwrap step — reports the failure). -/
theorem jsonpUnwrap_no_paren (resp : Str)
    (hresp : ∀ c ∈ resp, isParenChar c = false) :
    (resp = [] →
        jsonpUnwrap true resp = .error .sliceIndex
          ∧ jsonpUnwrap false resp = .error .sliceIndex)
      ∧ (resp ≠ [] →
        jsonpUnwrap true resp = .error .subOverflow
          ∧ jsonpUnwrap false resp = .ok []) := by
  constructor
  · rintro rfl
    exact ⟨rfl, rfl⟩
  · intro hne
    have hsplit : splitInclusive isParenChar resp = [resp] := by
      unfold splitInclusive
      have := splitInclusiveAux_append_of_no_delim isParenChar resp hresp [] []
      simp only [List.append_nil] at this
      rw [this]
      simp [splitInclusiveAux, hne]
    constructor <;> simp [jsonpUnwrap, hsplit]

/-- Witness for the amended C4 at the paren-free response `"hello"` (and, via
the first conjunct, at the empty response). -/
theorem jsonpUnwrap_no_paren_witness :
    jsonpUnwrap true "hello".data = .error .subOverflow
      ∧ jsonpUnwrap false "hello".data = .ok [] :=
  (jsonpUnwrap_no_paren "hello".data (by decide)).2 (by decide)

/-- Model of `serde_json::Value`. Numbers are restricted to integers: the
endpoint fields the program reads (`fileType`, `fileVersion`, `currStatus`,
`registeResult`) are integer-valued, and `as_u64` on a float returns `None`
exactly as `asU64` does on an out-of-range integer here. Object keys are
assumed unique, as produced by `serde_json` parsing. -/
inductive Json where
  | null
  | bool (b : Bool)
  | num (n : Int)
  | str (s : Str)
  | arr (xs : List Json)
  | obj (kvs : List (String × Json))

/-- Model of `value["key"]`: field of an object, `Null` on a missing key or a
non-object, as with `serde_json`'s `Index<&str>`. -/
def Json.get : Json → String → Json
  | .obj kvs, key =>
    match kvs.find? (fun kv => kv.1 = key) with
    | some kv => kv.2
    | none => .null
  | _, _ => .null

/-- Model of `value[i]`: element of an array, `Null` out of bounds or on a
non-array, as with `serde_json`'s `Index<usize>`. -/
def Json.idx : Json → Nat → Json
  | .arr xs, i => xs.getD i .null
  | _, _ => .null

/-- Model of `Value::as_str`. -/
def Json.asStr : Json → Option Str
  | .str s => some s
  | _ => none

/-- Model of `Value::as_u64`. -/
def Json.asU64 : Json → Option Nat
  | .num n => if 0 ≤ n ∧ n < 2 ^ 64 then some n.toNat else none
  | _ => none

/-- Model of `Value::as_array`. -/
def Json.asArray : Json → Option (List Json)
  | .arr xs => some xs
  | _ => none

/-- Characters with the Unicode `White_Space` property, the set stripped by
Rust `str::trim`. -/
def rsIsWhitespace (c : Char) : Bool :=
  c.toNat = 0x09 || c.toNat = 0x0A || c.toNat = 0x0B || c.toNat = 0x0C ||
  c.toNat = 0x0D || c.toNat = 0x20 || c.toNat = 0x85 || c.toNat = 0xA0 ||
  c.toNat = 0x1680 || (0x2000 ≤ c.toNat && c.toNat ≤ 0x200A) ||
  c.toNat = 0x2028 || c.toNat = 0x2029 || c.toNat = 0x202F ||
  c.toNat = 0x205F || c.toNat = 0x3000

/-- Model of Rust `str::trim`. -/
def rsTrim (s : Str) : Str :=
  ((s.dropWhile rsIsWhitespace).reverse.dropWhile rsIsWhitespace).reverse

/-- Numeric value of a digit string. -/
def digitsVal (cs : Str) : Nat :=
  cs.foldl (fun a c => a * 10 + (c.toNat - 48)) 0

/-- Model of Rust `str::parse::<u32>()`: an optional leading `+`, then one or
more ASCII digits, value within `u32` range; anything else fails. -/
def parseU32 (s : Str) : Option Nat :=
  let ds : Str :=
    match s with
    | '+' :: rest => rest
    | _ => s
  if ds ≠ [] ∧ ds.all Char.isDigit then
    let v := digitsVal ds
    if v < 2 ^ 32 then some v else none
  else none

/-- Calendar date (the `time::Date` the program stores in its statuses). -/
structure SseDate where
  year : Nat
  month : Nat
  day : Nat
  deriving DecidableEq, Repr

/-- Model of `time::PrimitiveDateTime`. -/
structure SseDateTime where
  date : SseDate
  hour : Nat
  minute : Nat
  second : Nat
  deriving DecidableEq, Repr

def isLeapYear (y : Nat) : Bool :=
  (y % 4 = 0 && y % 100 ≠ 0) || y % 400 = 0

def daysInMonth (y m : Nat) : Nat :=
  if m = 2 then (if isLeapYear y then 29 else 28)
  else if m = 4 ∨ m = 6 ∨ m = 9 ∨ m = 11 then 30
  else 31

/-- Model of `parse_date_from_sse` (sse.rs lines 78-82): parse with the
`time` format `[year][month][day][hour][minute][second]` — exactly fourteen
ASCII digits, fully consumed, with the usual calendar validity checks. -/
def parse_date_from_sse (s : Str) : Option SseDateTime :=
  if s.length = 14 ∧ s.all Char.isDigit then
    let y := digitsVal (s.take 4)
    let mo := digitsVal ((s.drop 4).take 2)
    let d := digitsVal ((s.drop 6).take 2)
    let h := digitsVal ((s.drop 8).take 2)
    let mi := digitsVal ((s.drop 10).take 2)
    let sec := digitsVal ((s.drop 12).take 2)
    if 1 ≤ mo ∧ mo ≤ 12 ∧ 1 ≤ d ∧ d ≤ daysInMonth y mo ∧ h ≤ 23 ∧ mi ≤ 59 ∧ sec ≤ 59
    then some ⟨⟨y, mo, d⟩, h, mi, sec⟩
    else none
  else none

/-- Model of `PathBuf::push` for the arguments the program uses: a non-empty
relative component (or `/`-joined component group, such as the constant
`问询与回复/发行人与保荐机构`). -/
def rsPush (base item : Str) : Str :=
  base ++ '/' :: item

/-- Rust `Path::file_stem` on an ordinary file name: the whole name when it
contains no `.`, or when its only `.` is the leading character; otherwise the
portion before the final `.`. -/
def rsFileStemName (name : Str) : Str :=
  let r := name.reverse
  let afterDot := r.takeWhile (fun c => ¬ (c = '.'))
  if afterDot.length = r.length then name
  else
    let stemRev := r.drop (afterDot.length + 1)
    if stemRev = [] then name else stemRev.reverse

/-- Model of `PathBuf::set_extension("pdf")` on a path whose final component
is an ordinary file name: replace that component by its stem followed by
`.pdf`. -/
def rsSetExtPdf (path : Str) : Str :=
  let r := path.reverse
  let nameRev := r.takeWhile (fun c => ¬ (c = '/'))
  let dirRev := r.drop nameRev.length
  dirRev.reverse ++ rsFileStemName nameRev.reverse ++ ".pdf".data

/-- Outcome of a fallible Rust computation: `ok`, an `anyhow::Error` return
(`err`), or a panic (`panic`). -/
inductive RResult (α : Type) where
  | ok (a : α)
  | err (msg : String)
  | panic (msg : String)
  deriving DecidableEq, Repr

/-- Model of `RegisterResult` (sse.rs lines 36-41). -/
inductive RegisterResult where
  | RegisterEffective (d : SseDate)
  | RegisterTerminated (d : SseDate)
  deriving DecidableEq, Repr

/-- Model of `AuditStatus` (sse.rs lines 46-61). -/
inductive AuditStatus where
  | Accepted (d : SseDate)
  | Queried (d : SseDate)
  | Discussed (d : SseDate)
  | Submitted (d : SseDate)
  | Registered (r : RegisterResult)
  | Unsupported (s r : Nat)
  | Unknown
  deriving DecidableEq, Repr

/-- Model of `CompanyInfo` (sse.rs lines 65-76). -/
structure CompanyInfo where
  stock_audit_name : Str
  stock_audit_number : Nat
  curr_status : AuditStatus
  apply_date : SseDateTime
  update_date : SseDateTime
  deriving DecidableEq, Repr

/-- The `match (status, result)` of sse.rs lines 117-130, translated arm by
arm in source order (a Rust match on integer literals is a sequence of
equality tests). -/
def currStatusOf (status result : Option Nat) (d : SseDate) : AuditStatus :=
  if status = some 5 ∧ result = some 1 then .Registered (.RegisterEffective d)
  else if status = some 5 ∧ result = some 3 then .Registered (.RegisterTerminated d)
  else if status = some 4 then .Submitted d
  else if status = some 3 then .Discussed d
  else if status = some 2 then .Queried d
  else if status = some 1 then .Accepted d
  else
    match status, result with
    | some s, some r => .Unsupported s r
    | _, _ => .Unknown

/-- The status-resolution table of spec section 4.2, row by row: (5,1) and
(5,3) map to the two registered outcomes, status 4/3/2/1 map to
submitted/discussed/queried/accepted regardless of the result code, any other
pair with both codes present maps to unsupported, and an absent code maps to
unknown. -/
def specAuditStatus (status result : Option Nat) (d : SseDate) : AuditStatus :=
  if status = some 5 ∧ result = some 1 then .Registered (.RegisterEffective d)
  else if status = some 5 ∧ result = some 3 then .Registered (.RegisterTerminated d)
  else if status = some 4 then .Submitted d
  else if status = some 3 then .Discussed d
  else if status = some 2 then .Queried d
  else if status = some 1 then .Accepted d
  else
    match status, result with
    | some s, some r => .Unsupported s r
    | _, _ => .Unknown

theorem currStatusOf_eq_spec (status result : Option Nat) (d : SseDate) :
    currStatusOf status result d = specAuditStatus status result d := rfl

/-- Model of `CompanyInfo::try_from` (sse.rs lines 86-145) from the
deserialized JSON body onward. Field initializers run in source order: the
empty-result check, then the company name (error return on failure), then
`stockAuditNum` via `as_str().unwrap()` and `parse::<u32>().unwrap()` (panics
on failure), then the status block, then the two date fields. -/
def companyInfoFromJson (body : Json) : RResult CompanyInfo :=
  if (match body.get "result" with | .arr xs => xs.isEmpty | _ => false) then
    .err "empty company info"
  else
    let r0 := (body.get "result").idx 0
    match ((r0.get "stockIssuer").idx 0 |>.get "s_issueCompanyFullName").asStr with
    | none => .err "get company name failed"
    | some companyName =>
      match (r0.get "stockAuditNum").asStr with
      | none => .panic "called Option::unwrap on a None value"
      | some numStr =>
        match parseU32 numStr with
        | none => .panic "called Result::unwrap on an Err value"
        | some num =>
          let status := (r0.get "currStatus").asU64
          let result := (r0.get "registeResult").asU64
          match (r0.get "updateDate").asStr with
          | none => .err "acquire update time failed"
          | some ud =>
            match parse_date_from_sse ud with
            | none => .err "error in parsing date"
            | some dt =>
              match (r0.get "auditApplyDate").asStr with
              | none => .err "acquire apply_date failed"
              | some ad =>
                match parse_date_from_sse ad with
                | none => .err "error in parsing date"
                | some adt =>
                  match (r0.get "updateDate").asStr with
                  | none => .err "acquire update_date failed"
                  | some ud2 =>
                    match parse_date_from_sse ud2 with
                    | none => .err "error in parsing date"
                    | some udt =>
                      .ok { stock_audit_name := rsTrim companyName
                            stock_audit_number := num
                            curr_status := currStatusOf status result dt.date
                            apply_date := adt
                            update_date := udt }

/-- Bool-valued discriminator for the panic outcome. -/
def RResult.isPanicB {α : Type} : RResult α → Bool
  | .panic _ => true
  | _ => false

/-- C7: whenever the overview parser succeeds, the resulting `AuditStatus` is
exactly the section-4.2 table applied to the two integer codes `currStatus`
and `registeResult` of the first result record ((5,1) registered-effective,
(5,3) registered-terminated, 4 submitted, 3 discussed, 2 queried, 1 accepted,
any other pair with both codes present unsupported, an absent code unknown),
and in every dated branch the carried date is the date component of the
record's `updateDate` parsed with format `YYYYMMDDHHmmss`. -/
theorem companyInfo_status_follows_spec_table (body : Json) (c : CompanyInfo)
    (h : companyInfoFromJson body = .ok c) :
    ∃ ud dt,
      (((body.get "result").idx 0).get "updateDate").asStr = some ud
        ∧ parse_date_from_sse ud = some dt
        ∧ c.curr_status =
            specAuditStatus (((body.get "result").idx 0).get "currStatus").asU64
              (((body.get "result").idx 0).get "registeResult").asU64 dt.date := by
  simp only [companyInfoFromJson] at h
  split at h
  · simp at h
  · split at h
    · simp at h
    · split at h
      · simp at h
      · split at h
        · simp at h
        · split at h
          · simp at h
          · rename_i ud hud
            split at h
            · simp at h
            · rename_i dt hdt
              split at h
              · simp at h
              · split at h
                · simp at h
                · split at h
                  · simp at h
                  · split at h
                    · simp at h
                    · simp only [RResult.ok.injEq] at h
                      subst h
                      exact ⟨ud, dt, hud, hdt, currStatusOf_eq_spec ..⟩

/-- Concrete overview body used to witness C7: codes (5,1), update date
`20210701123456`. -/
def c7Body : Json :=
  .obj [("result", .arr [ .obj [
    ("stockIssuer", .arr [ .obj [("s_issueCompanyFullName", .str "大汉软件股份有限公司".data)] ]),
    ("stockAuditNum", .str "942".data),
    ("currStatus", .num 5),
    ("registeResult", .num 1),
    ("updateDate", .str "20210701123456".data),
    ("auditApplyDate", .str "20200601000000".data)
  ] ])]

/-- The record the parser produces for `c7Body`. -/
def c7Parsed : CompanyInfo :=
  { stock_audit_name := "大汉软件股份有限公司".data
    stock_audit_number := 942
    curr_status := .Registered (.RegisterEffective ⟨2021, 7, 1⟩)
    apply_date := ⟨⟨2020, 6, 1⟩, 0, 0, 0⟩
    update_date := ⟨⟨2021, 7, 1⟩, 12, 34, 56⟩ }

/-- Witness for C7 at `c7Body`: the parse succeeds and the status follows the
spec table at codes (5,1) with the date component of `20210701123456`. -/
theorem companyInfo_status_follows_spec_table_witness :
    ∃ ud dt,
      (((c7Body.get "result").idx 0).get "updateDate").asStr = some ud
        ∧ parse_date_from_sse ud = some dt
        ∧ c7Parsed.curr_status =
            specAuditStatus (((c7Body.get "result").idx 0).get "currStatus").asU64
              (((c7Body.get "result").idx 0).get "registeResult").asU64 dt.date :=
  companyInfo_status_follows_spec_table c7Body c7Parsed (by decide)

/-- Overview body with a non-empty `result` array whose first record lacks
`stockAuditNum` — and also lacks the issuer name. -/
def c10Body : Json :=
  .obj [("result", .arr [ .obj [] ])]

/-- C10 counterexample: for `c10Body` — a non-empty result array whose first
record's `stockAuditNum` is absent — `CompanyInfo::try_from` does not panic:
the company-name extraction runs first and returns an ordinary error result,
contradicting the claim's universal "panics instead of returning an error". -/
theorem companyInfo_missing_auditnum_no_panic :
    companyInfoFromJson c10Body = .err "get company name failed"
      ∧ (companyInfoFromJson c10Body).isPanicB = false := by
  constructor <;> decide

/-- C10 as amended: for every overview response with a non-empty result array
whose first record's issuer company name is present (so the earlier
`MissingField`-style error return is not taken) and whose `stockAuditNum`
field is absent, not a JSON string, or not parseable as an unsigned 32-bit
integer, `CompanyInfo::try_from` panics (via `unwrap`) instead of returning
an error result. -/
theorem companyInfo_missing_auditnum_panics (body : Json) (rs : List Json) (nm : Str)
    (hres : body.get "result" = .arr rs) (hne : rs ≠ [])
    (hname : ((((body.get "result").idx 0).get "stockIssuer").idx 0
        |>.get "s_issueCompanyFullName").asStr = some nm)
    (hnum : (((body.get "result").idx 0).get "stockAuditNum").asStr = none
        ∨ ∃ s, (((body.get "result").idx 0).get "stockAuditNum").asStr = some s
            ∧ parseU32 s = none) :
    ∃ m, companyInfoFromJson body = .panic m := by
  have hc : (match body.get "result" with | .arr xs => xs.isEmpty | _ => false) = false := by
    rw [hres]
    simpa using hne
  rcases hnum with h | ⟨s, hs, hp⟩
  · exact ⟨"called Option::unwrap on a None value",
      by simp only [companyInfoFromJson, hc, Bool.false_eq_true, if_false, hname, h]⟩
  · exact ⟨"called Result::unwrap on an Err value",
      by simp only [companyInfoFromJson, hc, Bool.false_eq_true, if_false, hname, hs, hp]⟩

/-- Overview body with the issuer name present and `stockAuditNum` absent. -/
def c10WBody : Json :=
  .obj [("result", .arr [ .obj [
    ("stockIssuer", .arr [ .obj [("s_issueCompanyFullName", .str "甲公司".data)] ])
  ] ])]

/-- Witness for the amended C10 at `c10WBody`. -/
theorem companyInfo_missing_auditnum_panics_witness :
    ∃ m, companyInfoFromJson c10WBody = .panic m :=
  companyInfo_missing_auditnum_panics c10WBody [ .obj [
    ("stockIssuer", .arr [ .obj [("s_issueCompanyFullName", .str "甲公司".data)] ])
  ] ] "甲公司".data rfl (by simp) (by decide) (Or.inl (by decide))

/-! Subfolder constants of sse.rs lines 14-21. -/

def DECLARE_SUBFOLDER : Str := "申报稿".data

def REGISTER_SUBFOLDER : Str := "注册稿".data

def MEETING_SUBFOLDER : Str := "上会稿".data

def SPONSOR_SUBFOLDER : Str := "问询与回复/发行人与保荐机构".data

def ACCOUNTANT_SUBFOLDER : Str := "问询与回复/会计师".data

def LAWYER_SUBFOLDER : Str := "问询与回复/律师".data

def RESULT_SUBFOLDER : Str := "结果".data

def UNCLASSIFIED_SUBFOLDER : Str := "问询与回复/未分组".data

/-- Model of `UploadFile` (sse.rs lines 149-153). The `url` field holds the
absolute URL text: the fixed host of the static base joined with the path
given to `Url::set_path` (`"stock" + filePath`); percent-encoding is not
modelled, no claim depends on it. -/
structure UploadFile where
  filename : Str
  url : Str
  path : Str
  deriving DecidableEq, Repr

/-- Model of `QueryReply` (sse.rs lines 156-165). -/
inductive QueryReply where
  | Sponsor (f : UploadFile)
  | Accountant (f : UploadFile)
  | Lawyer (f : UploadFile)
  | Other (f : UploadFile)
  deriving DecidableEq, Repr

/-- One `[Vec<UploadFile>; 3]` bucket: index 0 is the declaration stage
(申报稿), index 1 the meeting stage (上会稿), index 2 the registration stage
(注册稿), per the comment at sse.rs lines 170-176. -/
structure Slot3 where
  declareList : List UploadFile
  meetingList : List UploadFile
  registerList : List UploadFile
  deriving DecidableEq, Repr

def Slot3.empty : Slot3 := ⟨[], [], []⟩

def Slot3.push0 (t : Slot3) (f : UploadFile) : Slot3 :=
  { t with declareList := t.declareList ++ [f] }

def Slot3.push1 (t : Slot3) (f : UploadFile) : Slot3 :=
  { t with meetingList := t.meetingList ++ [f] }

def Slot3.push2 (t : Slot3) (f : UploadFile) : Slot3 :=
  { t with registerList := t.registerList ++ [f] }

/-- Model of `InfoDisclosure` (sse.rs lines 169-197). -/
structure InfoDisclosure where
  prospectuses : Slot3
  publish_sponsor : Slot3
  list_sponsor : Slot3
  audit_report : Slot3
  legal_opinion : Slot3
  others : Slot3
  query_and_reply : List (Option QueryReply)
  register_result_or_audit_terminated : List (Option UploadFile)
  deriving DecidableEq, Repr

/-- `InfoDisclosure::default()`. -/
def InfoDisclosure.defaultVal : InfoDisclosure :=
  ⟨.empty, .empty, .empty, .empty, .empty, .empty, [], []⟩

/-- The four operations every versioned match arm performs on the built file
(e.g. sse.rs lines 241-244): push the stage subfolder, append the publish
date to the filename, push the filename, set the `pdf` extension. -/
def appendDateAndPlace (file : UploadFile) (date sub : Str) : UploadFile :=
  let fn := file.filename ++ date
  { filename := fn
    url := file.url
    path := rsSetExtPdf (rsPush (rsPush file.path sub) fn) }

/-- The filename-prefix sub-routing of the query-and-reply arm (sse.rs lines
402-429). Note the final branch pushes the literal `问询与回复`, not the
`UNCLASSIFIED_SUBFOLDER` constant (`问询与回复/未分组`). -/
def classifyQueryReply (file : UploadFile) : QueryReply :=
  if "8-1".data.isPrefixOf file.filename then
    .Sponsor { file with
      path := rsSetExtPdf (rsPush (rsPush file.path SPONSOR_SUBFOLDER) file.filename) }
  else if "8-2".data.isPrefixOf file.filename then
    .Accountant { file with
      path := rsSetExtPdf (rsPush (rsPush file.path ACCOUNTANT_SUBFOLDER) file.filename) }
  else if "8-3".data.isPrefixOf file.filename then
    .Lawyer { file with
      path := rsSetExtPdf (rsPush (rsPush file.path LAWYER_SUBFOLDER) file.filename) }
  else
    .Other { file with
      path := rsSetExtPdf (rsPush (rsPush file.path "问询与回复".data) file.filename) }

/-- The registration-result arm's file placement (sse.rs lines 432-437). -/
def placeResult (file : UploadFile) : UploadFile :=
  { file with path := rsSetExtPdf (rsPush (rsPush file.path RESULT_SUBFOLDER) file.filename) }

/-- The `match (file_type, file_ver)` of sse.rs lines 238-441, translated arm
by arm in source order (a Rust match on integer literals is a sequence of
equality tests). -/
def routeFile (infos : InfoDisclosure) (file : UploadFile) (date : Str)
    (ft fv : Option Nat) : RResult InfoDisclosure :=
  if ft = some 30 ∧ fv = some 1 then
    .ok { infos with prospectuses := infos.prospectuses.push0 (appendDateAndPlace file date DECLARE_SUBFOLDER) }
  else if ft = some 30 ∧ fv = some 2 then
    .ok { infos with prospectuses := infos.prospectuses.push1 (appendDateAndPlace file date MEETING_SUBFOLDER) }
  else if ft = some 30 ∧ (fv = some 3 ∨ fv = some 4) then
    .ok { infos with prospectuses := infos.prospectuses.push2 (appendDateAndPlace file date REGISTER_SUBFOLDER) }
  else if ft = some 36 ∧ fv = some 1 then
    .ok { infos with publish_sponsor := infos.publish_sponsor.push0 (appendDateAndPlace file date DECLARE_SUBFOLDER) }
  else if ft = some 36 ∧ fv = some 2 then
    .ok { infos with publish_sponsor := infos.publish_sponsor.push1 (appendDateAndPlace file date MEETING_SUBFOLDER) }
  else if ft = some 36 ∧ (fv = some 3 ∨ fv = some 4) then
    .ok { infos with publish_sponsor := infos.publish_sponsor.push2 (appendDateAndPlace file date REGISTER_SUBFOLDER) }
  else if ft = some 37 ∧ fv = some 1 then
    .ok { infos with list_sponsor := infos.list_sponsor.push0 (appendDateAndPlace file date DECLARE_SUBFOLDER) }
  else if ft = some 37 ∧ fv = some 2 then
    .ok { infos with list_sponsor := infos.list_sponsor.push1 (appendDateAndPlace file date MEETING_SUBFOLDER) }
  else if ft = some 37 ∧ (fv = some 3 ∨ fv = some 4) then
    .ok { infos with list_sponsor := infos.list_sponsor.push2 (appendDateAndPlace file date REGISTER_SUBFOLDER) }
  else if ft = some 32 ∧ fv = some 1 then
    .ok { infos with audit_report := infos.audit_report.push0 (appendDateAndPlace file date DECLARE_SUBFOLDER) }
  else if ft = some 32 ∧ fv = some 2 then
    .ok { infos with audit_report := infos.audit_report.push1 (appendDateAndPlace file date MEETING_SUBFOLDER) }
  else if ft = some 32 ∧ (fv = some 3 ∨ fv = some 4) then
    .ok { infos with audit_report := infos.audit_report.push2 (appendDateAndPlace file date REGISTER_SUBFOLDER) }
  else if ft = some 33 ∧ fv = some 1 then
    .ok { infos with legal_opinion := infos.legal_opinion.push0 (appendDateAndPlace file date DECLARE_SUBFOLDER) }
  else if ft = some 33 ∧ fv = some 2 then
    .ok { infos with legal_opinion := infos.legal_opinion.push1 (appendDateAndPlace file date MEETING_SUBFOLDER) }
  else if ft = some 33 ∧ (fv = some 3 ∨ fv = some 4) then
    .ok { infos with legal_opinion := infos.legal_opinion.push2 (appendDateAndPlace file date REGISTER_SUBFOLDER) }
  else if ft = some 34 ∧ fv = some 1 then
    .ok { infos with others := infos.others.push0 (appendDateAndPlace file date DECLARE_SUBFOLDER) }
  else if ft = some 34 ∧ fv = some 2 then
    .ok { infos with others := infos.others.push1 (appendDateAndPlace file date MEETING_SUBFOLDER) }
  else if ft = some 34 ∧ (fv = some 3 ∨ fv = some 4) then
    .ok { infos with others := infos.others.push2 (appendDateAndPlace file date REGISTER_SUBFOLDER) }
  else if ft = some 5 ∨ ft = some 6 then
    .ok { infos with query_and_reply := infos.query_and_reply ++ [some (classifyQueryReply file)] }
  else if ft = some 35 ∨ ft = some 38 then
    .ok { infos with register_result_or_audit_terminated :=
            infos.register_result_or_audit_terminated ++ [some (placeResult file)] }
  else .err "unknown file type"

/-- Model of the per-descriptor closure body of `InfoDisclosure::try_from`
(sse.rs lines 212-441): read `publishDate`, build the `UploadFile` (filename
from `fileTitle`, URL from the static base and `filePath`, path rooted at
`Download/<companyFullName trimmed>`), then dispatch on
`(fileType, fileVersion)`. -/
def discStep (infos : InfoDisclosure) (x : Json) : RResult InfoDisclosure :=
  match (x.get "publishDate").asStr with
  | none => .err "get filename failed"
  | some date =>
    match (x.get "fileTitle").asStr with
    | none => .err "get filename failed"
    | some name =>
      match (x.get "filePath").asStr with
      | none => .err "get file url failed"
      | some downloadUrl =>
        match (x.get "companyFullName").asStr with
        | none => .err "get company name failed"
        | some comp =>
          let file : UploadFile :=
            { filename := name
              url := "http://static.sse.com.cn/".data ++ ("stock".data ++ downloadUrl)
              path := rsPush "Download".data (rsTrim comp) }
          routeFile infos file date ((x.get "fileType").asU64) ((x.get "fileVersion").asU64)

/-- The `try_for_each` loop of `InfoDisclosure::try_from`: left-to-right,
aborting on the first error. -/
def discFold : List Json → InfoDisclosure → RResult InfoDisclosure
  | [], infos => .ok infos
  | x :: rest, infos =>
    match discStep infos x with
    | .ok infos2 => discFold rest infos2
    | .err m => .err m
    | .panic m => .panic m

/-- Model of `InfoDisclosure::try_from` (sse.rs lines 201-448) from the
deserialized JSON body onward; a failing fold is replaced by the blanket
error of line 446. -/
def infoDisclosureFromJson (body : Json) : RResult InfoDisclosure :=
  match (body.get "result").asArray with
  | none => .err "extract file array failed"
  | some files =>
    match discFold files InfoDisclosure.defaultVal with
    | .ok infos => .ok infos
    | .err _ => .err "Error in parsing file path for InfoDisclosure"
    | .panic m => .panic m

/-- Spec-side bucket names of the section-4.3 classification table. -/
inductive BucketSel where
  | prospectus
  | publishSponsor
  | listSponsor
  | auditReport
  | legalOpinion
  | others
  deriving DecidableEq, Repr

/-- Spec-side version-stage names: declaration (fileVersion 1), meeting (2),
registration (3 or 4). -/
inductive StageSel where
  | declaration
  | meeting
  | registration
  deriving DecidableEq, Repr

/-- Spec-side routing outcome for one tabled `(fileType, fileVersion)` pair. -/
inductive SpecRoute where
  | versioned (b : BucketSel) (s : StageSel)
  | queryReply
  | registerResult
  deriving DecidableEq, Repr

/-- The classification table of spec section 4.3, row by row: fileType 30 is
the prospectus, 36 the issuance-sponsor letter, 37 the listing-sponsor
letter, 32 the audit report, 33 the legal opinion, 34 "other", each versioned
by fileVersion 1 / 2 / 3-or-4; fileType 5 or 6 (any version) is
query-and-reply; fileType 35 or 38 (any version) is the
registration-result-or-termination list; every other pair is untabled
(`none`). -/
def specClassify (ft fv : Option Nat) : Option SpecRoute :=
  if ft = some 30 ∧ fv = some 1 then some (.versioned .prospectus .declaration)
  else if ft = some 30 ∧ fv = some 2 then some (.versioned .prospectus .meeting)
  else if ft = some 30 ∧ (fv = some 3 ∨ fv = some 4) then some (.versioned .prospectus .registration)
  else if ft = some 36 ∧ fv = some 1 then some (.versioned .publishSponsor .declaration)
  else if ft = some 36 ∧ fv = some 2 then some (.versioned .publishSponsor .meeting)
  else if ft = some 36 ∧ (fv = some 3 ∨ fv = some 4) then some (.versioned .publishSponsor .registration)
  else if ft = some 37 ∧ fv = some 1 then some (.versioned .listSponsor .declaration)
  else if ft = some 37 ∧ fv = some 2 then some (.versioned .listSponsor .meeting)
  else if ft = some 37 ∧ (fv = some 3 ∨ fv = some 4) then some (.versioned .listSponsor .registration)
  else if ft = some 32 ∧ fv = some 1 then some (.versioned .auditReport .declaration)
  else if ft = some 32 ∧ fv = some 2 then some (.versioned .auditReport .meeting)
  else if ft = some 32 ∧ (fv = some 3 ∨ fv = some 4) then some (.versioned .auditReport .registration)
  else if ft = some 33 ∧ fv = some 1 then some (.versioned .legalOpinion .declaration)
  else if ft = some 33 ∧ fv = some 2 then some (.versioned .legalOpinion .meeting)
  else if ft = some 33 ∧ (fv = some 3 ∨ fv = some 4) then some (.versioned .legalOpinion .registration)
  else if ft = some 34 ∧ fv = some 1 then some (.versioned .others .declaration)
  else if ft = some 34 ∧ fv = some 2 then some (.versioned .others .meeting)
  else if ft = some 34 ∧ (fv = some 3 ∨ fv = some 4) then some (.versioned .others .registration)
  else if ft = some 5 ∨ ft = some 6 then some .queryReply
  else if ft = some 35 ∨ ft = some 38 then some .registerResult
  else none

/-- The documented stage subfolder of each version stage. -/
def subfolderOfStage : StageSel → Str
  | .declaration => DECLARE_SUBFOLDER
  | .meeting => MEETING_SUBFOLDER
  | .registration => REGISTER_SUBFOLDER

/-- Push a file into the version slot named by a stage. -/
def Slot3.pushStage (t : Slot3) : StageSel → UploadFile → Slot3
  | .declaration, f => t.push0 f
  | .meeting, f => t.push1 f
  | .registration, f => t.push2 f

/-- Place a file into the bucket and version slot documented by the spec
table. -/
def addVersioned (infos : InfoDisclosure) (b : BucketSel) (s : StageSel)
    (f : UploadFile) : InfoDisclosure :=
  match b with
  | .prospectus => { infos with prospectuses := infos.prospectuses.pushStage s f }
  | .publishSponsor => { infos with publish_sponsor := infos.publish_sponsor.pushStage s f }
  | .listSponsor => { infos with list_sponsor := infos.list_sponsor.pushStage s f }
  | .auditReport => { infos with audit_report := infos.audit_report.pushStage s f }
  | .legalOpinion => { infos with legal_opinion := infos.legal_opinion.pushStage s f }
  | .others => { infos with others := infos.others.pushStage s f }

/-- The source's dispatch agrees, arm for arm, with the spec-side
classification table. -/
theorem routeFile_eq_specClassify (infos : InfoDisclosure) (file : UploadFile)
    (date : Str) (ft fv : Option Nat) :
    routeFile infos file date ft fv =
      match specClassify ft fv with
      | some (.versioned b s) =>
          .ok (addVersioned infos b s (appendDateAndPlace file date (subfolderOfStage s)))
      | some .queryReply =>
          .ok { infos with query_and_reply := infos.query_and_reply ++ [some (classifyQueryReply file)] }
      | some .registerResult =>
          .ok { infos with register_result_or_audit_terminated :=
                  infos.register_result_or_audit_terminated ++ [some (placeResult file)] }
      | none => .err "unknown file type" := by
  unfold routeFile specClassify
  by_cases h1 : ft = some 30 ∧ fv = some 1
  · simp only [if_pos h1]
    try rfl
  · simp only [if_neg h1]
    by_cases h2 : ft = some 30 ∧ fv = some 2
    · simp only [if_pos h2]
      try rfl
    · simp only [if_neg h2]
      by_cases h3 : ft = some 30 ∧ (fv = some 3 ∨ fv = some 4)
      · simp only [if_pos h3]
        try rfl
      · simp only [if_neg h3]
        by_cases h4 : ft = some 36 ∧ fv = some 1
        · simp only [if_pos h4]
          try rfl
        · simp only [if_neg h4]
          by_cases h5 : ft = some 36 ∧ fv = some 2
          · simp only [if_pos h5]
            try rfl
          · simp only [if_neg h5]
            by_cases h6 : ft = some 36 ∧ (fv = some 3 ∨ fv = some 4)
            · simp only [if_pos h6]
              try rfl
            · simp only [if_neg h6]
              by_cases h7 : ft = some 37 ∧ fv = some 1
              · simp only [if_pos h7]
                try rfl
              · simp only [if_neg h7]
                by_cases h8 : ft = some 37 ∧ fv = some 2
                · simp only [if_pos h8]
                  try rfl
                · simp only [if_neg h8]
                  by_cases h9 : ft = some 37 ∧ (fv = some 3 ∨ fv = some 4)
                  · simp only [if_pos h9]
                    try rfl
                  · simp only [if_neg h9]
                    by_cases h10 : ft = some 32 ∧ fv = some 1
                    · simp only [if_pos h10]
                      try rfl
                    · simp only [if_neg h10]
                      by_cases h11 : ft = some 32 ∧ fv = some 2
                      · simp only [if_pos h11]
                        try rfl
                      · simp only [if_neg h11]
                        by_cases h12 : ft = some 32 ∧ (fv = some 3 ∨ fv = some 4)
                        · simp only [if_pos h12]
                          try rfl
                        · simp only [if_neg h12]
                          by_cases h13 : ft = some 33 ∧ fv = some 1
                          · simp only [if_pos h13]
                            try rfl
                          · simp only [if_neg h13]
                            by_cases h14 : ft = some 33 ∧ fv = some 2
                            · simp only [if_pos h14]
                              try rfl
                            · simp only [if_neg h14]
                              by_cases h15 : ft = some 33 ∧ (fv = some 3 ∨ fv = some 4)
                              · simp only [if_pos h15]
                                try rfl
                              · simp only [if_neg h15]
                                by_cases h16 : ft = some 34 ∧ fv = some 1
                                · simp only [if_pos h16]
                                  try rfl
                                · simp only [if_neg h16]
                                  by_cases h17 : ft = some 34 ∧ fv = some 2
                                  · simp only [if_pos h17]
                                    try rfl
                                  · simp only [if_neg h17]
                                    by_cases h18 : ft = some 34 ∧ (fv = some 3 ∨ fv = some 4)
                                    · simp only [if_pos h18]
                                      try rfl
                                    · simp only [if_neg h18]
                                      by_cases h19 : ft = some 5 ∨ ft = some 6
                                      · simp only [if_pos h19]
                                        try rfl
                                      · simp only [if_neg h19]
                                        by_cases h20 : ft = some 35 ∨ ft = some 38
                                        · simp only [if_pos h20]
                                          try rfl
                                        · simp only [if_neg h20]
                                          try rfl

/-- The `UploadFile` built for a descriptor before classification (sse.rs
lines 214-235): filename from `fileTitle`, URL from the static base and
`"stock" + filePath`, path rooted at `Download/<companyFullName trimmed>`. -/
def baseUploadFile (name downloadUrl comp : Str) : UploadFile :=
  { filename := name
    url := "http://static.sse.com.cn/".data ++ ("stock".data ++ downloadUrl)
    path := rsPush "Download".data (rsTrim comp) }

/-- Spec-side placement of a routed file into its documented bucket. -/
def placeRoute (infos : InfoDisclosure) (r : SpecRoute) (file : UploadFile)
    (date : Str) : InfoDisclosure :=
  match r with
  | .versioned b s => addVersioned infos b s (appendDateAndPlace file date (subfolderOfStage s))
  | .queryReply =>
      { infos with query_and_reply := infos.query_and_reply ++ [some (classifyQueryReply file)] }
  | .registerResult =>
      { infos with register_result_or_audit_terminated :=
          infos.register_result_or_audit_terminated ++ [some (placeResult file)] }

theorem routeFile_eq_placeRoute (infos : InfoDisclosure) (file : UploadFile)
    (date : Str) (ft fv : Option Nat) :
    routeFile infos file date ft fv =
      match specClassify ft fv with
      | some r => .ok (placeRoute infos r file date)
      | none => .err "unknown file type" := by
  rw [routeFile_eq_specClassify]
  cases specClassify ft fv with
  | none => rfl
  | some r => cases r with
    | versioned b s => rfl
    | queryReply => rfl
    | registerResult => rfl

/-- A well-formed descriptor's step is routing of its base file. -/
theorem discStep_eq (infos : InfoDisclosure) (x : Json) (date name downloadUrl comp : Str)
    (hdate : (x.get "publishDate").asStr = some date)
    (hname : (x.get "fileTitle").asStr = some name)
    (hpath : (x.get "filePath").asStr = some downloadUrl)
    (hcomp : (x.get "companyFullName").asStr = some comp) :
    discStep infos x =
      match specClassify ((x.get "fileType").asU64) ((x.get "fileVersion").asU64) with
      | some r => .ok (placeRoute infos r (baseUploadFile name downloadUrl comp) date)
      | none => .err "unknown file type" := by
  unfold discStep
  rw [hdate, hname, hpath, hcomp]
  exact routeFile_eq_placeRoute ..

/-- The per-descriptor step never panics: every failure is an ordinary
`anyhow` error. -/
theorem discStep_no_panic (infos : InfoDisclosure) (x : Json) (m : String) :
    discStep infos x ≠ .panic m := by
  unfold discStep
  split
  · simp
  · split
    · simp
    · split
      · simp
      · split
        · simp
        · rw [routeFile_eq_placeRoute]
          cases specClassify ((x.get "fileType").asU64) ((x.get "fileVersion").asU64) <;> simp

theorem discFold_singleton (infos : InfoDisclosure) (x : Json) :
    discFold [x] infos = discStep infos x := by
  cases h : discStep infos x <;> simp [discFold, h]

theorem discFold_append (xs ys : List Json) (infos : InfoDisclosure) :
    discFold (xs ++ ys) infos =
      match discFold xs infos with
      | .ok i2 => discFold ys i2
      | .err m => .err m
      | .panic m => .panic m := by
  induction xs generalizing infos with
  | nil => simp [discFold]
  | cons x xs ih =>
    simp only [List.cons_append, discFold]
    cases discStep infos x <;> simp [ih]

theorem discFold_no_panic (xs : List Json) (infos : InfoDisclosure) (m : String) :
    discFold xs infos ≠ .panic m := by
  induction xs generalizing infos with
  | nil => simp [discFold]
  | cons x xs ih =>
    simp only [discFold]
    cases h : discStep infos x with
    | ok i2 => exact ih i2
    | err m2 => simp
    | panic m2 => exact absurd h (discStep_no_panic infos x m2)

/-- C1: a well-formed disclosure descriptor whose `(fileType, fileVersion)`
pair is in the section-4.3 table is routed to exactly the documented bucket
and version slot (fileType 30 prospectus, 36 issuance-sponsor letter, 37
listing-sponsor letter, 32 audit report, 33 legal opinion, 34 other, with
fileVersion 1 declaration, 2 meeting, 3-or-4 registration; fileType 5 or 6
with any version to query-and-reply; 35 or 38 with any version to the
registration-result list) — the parse of a single-descriptor response is the
empty `DisclosureSet` with the built `UploadFile` placed in that one slot —
and for an untabled pair parsing fails; moreover, an untabled well-formed
descriptor anywhere in the array makes the whole parse fail with the
`InfoDisclosure` parse error, producing no `DisclosureSet`. -/
theorem disclosure_routing_follows_table (x : Json) (date name downloadUrl comp : Str)
    (hdate : (x.get "publishDate").asStr = some date)
    (hname : (x.get "fileTitle").asStr = some name)
    (hpath : (x.get "filePath").asStr = some downloadUrl)
    (hcomp : (x.get "companyFullName").asStr = some comp) :
    (infoDisclosureFromJson (.obj [("result", .arr [x])]) =
      match specClassify ((x.get "fileType").asU64) ((x.get "fileVersion").asU64) with
      | some r =>
          .ok (placeRoute InfoDisclosure.defaultVal r (baseUploadFile name downloadUrl comp) date)
      | none => .err "Error in parsing file path for InfoDisclosure")
    ∧ (specClassify ((x.get "fileType").asU64) ((x.get "fileVersion").asU64) = none →
        ∀ pre post : List Json,
          infoDisclosureFromJson (.obj [("result", .arr (pre ++ x :: post))]) =
            .err "Error in parsing file path for InfoDisclosure") := by
  have hstep : ∀ infos : InfoDisclosure, discStep infos x =
      match specClassify ((x.get "fileType").asU64) ((x.get "fileVersion").asU64) with
      | some r => .ok (placeRoute infos r (baseUploadFile name downloadUrl comp) date)
      | none => .err "unknown file type" :=
    fun infos => discStep_eq infos x date name downloadUrl comp hdate hname hpath hcomp
  constructor
  · have hbody : infoDisclosureFromJson (.obj [("result", .arr [x])]) =
        match discFold [x] InfoDisclosure.defaultVal with
        | .ok infos => .ok infos
        | .err _ => .err "Error in parsing file path for InfoDisclosure"
        | .panic m => .panic m := rfl
    rw [hbody, discFold_singleton, hstep]
    cases specClassify ((x.get "fileType").asU64) ((x.get "fileVersion").asU64) <;> rfl
  · intro hnone pre post
    have hbody : infoDisclosureFromJson (.obj [("result", .arr (pre ++ x :: post))]) =
        match discFold (pre ++ x :: post) InfoDisclosure.defaultVal with
        | .ok infos => .ok infos
        | .err _ => .err "Error in parsing file path for InfoDisclosure"
        | .panic m => .panic m := rfl
    cases hpre : discFold pre InfoDisclosure.defaultVal with
    | ok i2 =>
      have hx : discFold (x :: post) i2 = .err "unknown file type" := by
        simp only [discFold, hstep i2, hnone]
      rw [hbody, discFold_append, hpre]
      simp only [hx]
    | err m2 =>
      rw [hbody, discFold_append, hpre]
    | panic m2 => exact absurd hpre (discFold_no_panic pre InfoDisclosure.defaultVal m2)

/-- Witness for C1: a concrete descriptor with pair (30, 1) routes into the
prospectus declaration slot, and the same descriptor with the untabled pair
(31, 1) fails the whole parse. -/
theorem disclosure_routing_follows_table_witness :
    infoDisclosureFromJson (.obj [("result", .arr [ .obj [
        ("publishDate", .str "20210101".data),
        ("fileTitle", .str "X".data),
        ("filePath", .str "/a.pdf".data),
        ("companyFullName", .str "甲公司".data),
        ("fileType", .num 30),
        ("fileVersion", .num 1)
      ] ])]) =
      .ok (placeRoute InfoDisclosure.defaultVal (.versioned .prospectus .declaration)
        (baseUploadFile "X".data "/a.pdf".data "甲公司".data) "20210101".data) :=
  (disclosure_routing_follows_table ( .obj [
        ("publishDate", .str "20210101".data),
        ("fileTitle", .str "X".data),
        ("filePath", .str "/a.pdf".data),
        ("companyFullName", .str "甲公司".data),
        ("fileType", .num 30),
        ("fileVersion", .num 1)
      ]) "20210101".data "X".data "/a.pdf".data "甲公司".data
      (by decide) (by decide) (by decide) (by decide)).1

theorem takeWhile_all (p : Char → Bool) (l : Str) (hl : ∀ c ∈ l, p c = true) :
    l.takeWhile p = l := by
  induction l with
  | nil => rfl
  | cons c l ih =>
    have hc : p c = true := hl c (List.mem_cons_self ..)
    have hrest : ∀ c ∈ l, p c = true := fun c hcm => hl c (List.mem_cons_of_mem _ hcm)
    simp [List.takeWhile, hc, ih hrest]

theorem takeWhile_append_stop (p : Char → Bool) (l : Str) (d : Char) (rest : Str)
    (hl : ∀ c ∈ l, p c = true) (hd : p d = false) :
    (l ++ d :: rest).takeWhile p = l := by
  induction l with
  | nil => simp [List.takeWhile, hd]
  | cons c l ih =>
    have hc : p c = true := hl c (List.mem_cons_self ..)
    have hrest : ∀ c ∈ l, p c = true := fun c hcm => hl c (List.mem_cons_of_mem _ hcm)
    simp [List.takeWhile, hc, ih hrest]

theorem rsFileStemName_no_dot (fn : Str) (hdot : '.' ∉ fn) :
    rsFileStemName fn = fn := by
  simp only [rsFileStemName]
  have h : fn.reverse.takeWhile (fun c => ¬ (c = '.')) = fn.reverse := by
    apply takeWhile_all
    intro c hc
    have hcm : c ∈ fn := List.mem_reverse.mp hc
    simp only [decide_eq_true_eq, decide_not]
    simp only [Bool.not_eq_true']
    exact decide_eq_false (fun he => hdot (he ▸ hcm))
  rw [h, if_pos rfl]

/-- `set_extension("pdf")` after pushing a slash-free, dot-free file name is
just appending `.pdf` to that name. -/
theorem rsSetExtPdf_push (p fn : Str) (hslash : '/' ∉ fn) (hdot : '.' ∉ fn) :
    rsSetExtPdf (rsPush p fn) = rsPush p (fn ++ ".pdf".data) := by
  have h1 : (rsPush p fn).reverse = fn.reverse ++ '/' :: p.reverse := by
    simp [rsPush]
  have h2 : (fn.reverse ++ '/' :: p.reverse).takeWhile (fun c => ¬ (c = '/')) = fn.reverse := by
    apply takeWhile_append_stop
    · intro c hc
      have hcm : c ∈ fn := List.mem_reverse.mp hc
      simp only [decide_eq_true_eq, decide_not]
      simp only [Bool.not_eq_true']
      exact decide_eq_false (fun he => hslash (he ▸ hcm))
    · simp
  simp only [rsSetExtPdf]
  rw [h1, h2, List.drop_left, List.reverse_reverse, rsFileStemName_no_dot fn hdot]
  simp [rsPush]

/-- The list held in one version slot of one bucket. -/
def Slot3.stageList (t : Slot3) : StageSel → List UploadFile
  | .declaration => t.declareList
  | .meeting => t.meetingList
  | .registration => t.registerList

def bucketSlotList (d : InfoDisclosure) (b : BucketSel) (s : StageSel) : List UploadFile :=
  (match b with
   | .prospectus => d.prospectuses
   | .publishSponsor => d.publish_sponsor
   | .listSponsor => d.list_sponsor
   | .auditReport => d.audit_report
   | .legalOpinion => d.legal_opinion
   | .others => d.others).stageList s

theorem bucketSlotList_addVersioned (d : InfoDisclosure) (b : BucketSel) (s : StageSel)
    (f : UploadFile) :
    bucketSlotList (addVersioned d b s f) b s = bucketSlotList d b s ++ [f] := by
  cases b <;> cases s <;> rfl

theorem bucketSlotList_defaultVal (b : BucketSel) (s : StageSel) :
    bucketSlotList InfoDisclosure.defaultVal b s = [] := by
  cases b <;> cases s <;> rfl

/-- C6 as amended: a descriptor classified into a versioned bucket gets the
destination path `Download/<companyFullName trimmed>/<stage subfolder>/` +
`set_extension_pdf(fileTitle ++ publishDate)` — which equals
`<fileTitle ++ publishDate>.pdf` whenever the title and date contain no `.`
(and no `/`) — and two descriptors mapping to the same (type, version) slot
accumulate in that slot's list in order, rather than overwriting. -/
theorem disclosure_versioned_path_and_accumulation
    (x1 x2 : Json) (d1 n1 u1 c1 d2 n2 u2 c2 : Str) (b : BucketSel) (s : StageSel)
    (hd1 : (x1.get "publishDate").asStr = some d1)
    (hn1 : (x1.get "fileTitle").asStr = some n1)
    (hu1 : (x1.get "filePath").asStr = some u1)
    (hc1 : (x1.get "companyFullName").asStr = some c1)
    (hd2 : (x2.get "publishDate").asStr = some d2)
    (hn2 : (x2.get "fileTitle").asStr = some n2)
    (hu2 : (x2.get "filePath").asStr = some u2)
    (hc2 : (x2.get "companyFullName").asStr = some c2)
    (h1 : specClassify ((x1.get "fileType").asU64) ((x1.get "fileVersion").asU64)
        = some (.versioned b s))
    (h2 : specClassify ((x2.get "fileType").asU64) ((x2.get "fileVersion").asU64)
        = some (.versioned b s)) :
    infoDisclosureFromJson (.obj [("result", .arr [x1, x2])])
        = .ok (addVersioned (addVersioned InfoDisclosure.defaultVal b s
            (appendDateAndPlace (baseUploadFile n1 u1 c1) d1 (subfolderOfStage s))) b s
            (appendDateAndPlace (baseUploadFile n2 u2 c2) d2 (subfolderOfStage s)))
      ∧ bucketSlotList (addVersioned (addVersioned InfoDisclosure.defaultVal b s
            (appendDateAndPlace (baseUploadFile n1 u1 c1) d1 (subfolderOfStage s))) b s
            (appendDateAndPlace (baseUploadFile n2 u2 c2) d2 (subfolderOfStage s))) b s
          = [appendDateAndPlace (baseUploadFile n1 u1 c1) d1 (subfolderOfStage s),
             appendDateAndPlace (baseUploadFile n2 u2 c2) d2 (subfolderOfStage s)]
      ∧ (appendDateAndPlace (baseUploadFile n1 u1 c1) d1 (subfolderOfStage s)).path
          = rsSetExtPdf (rsPush (rsPush (rsPush "Download".data (rsTrim c1))
              (subfolderOfStage s)) (n1 ++ d1))
      ∧ ('/' ∉ n1 ++ d1 → '.' ∉ n1 ++ d1 →
          (appendDateAndPlace (baseUploadFile n1 u1 c1) d1 (subfolderOfStage s)).path
            = rsPush (rsPush (rsPush "Download".data (rsTrim c1)) (subfolderOfStage s))
                (n1 ++ d1 ++ ".pdf".data)) := by
  have hstep1 : ∀ infos : InfoDisclosure, discStep infos x1 =
      match specClassify ((x1.get "fileType").asU64) ((x1.get "fileVersion").asU64) with
      | some r => .ok (placeRoute infos r (baseUploadFile n1 u1 c1) d1)
      | none => .err "unknown file type" :=
    fun infos => discStep_eq infos x1 d1 n1 u1 c1 hd1 hn1 hu1 hc1
  have hstep2 : ∀ infos : InfoDisclosure, discStep infos x2 =
      match specClassify ((x2.get "fileType").asU64) ((x2.get "fileVersion").asU64) with
      | some r => .ok (placeRoute infos r (baseUploadFile n2 u2 c2) d2)
      | none => .err "unknown file type" :=
    fun infos => discStep_eq infos x2 d2 n2 u2 c2 hd2 hn2 hu2 hc2
  refine ⟨?_, ?_, rfl, ?_⟩
  · have hb : infoDisclosureFromJson (.obj [("result", .arr [x1, x2])]) =
        match discFold [x1, x2] InfoDisclosure.defaultVal with
        | .ok infos => .ok infos
        | .err _ => .err "Error in parsing file path for InfoDisclosure"
        | .panic m => .panic m := rfl
    rw [hb]
    have hf : discFold [x1, x2] InfoDisclosure.defaultVal =
        .ok (addVersioned (addVersioned InfoDisclosure.defaultVal b s
          (appendDateAndPlace (baseUploadFile n1 u1 c1) d1 (subfolderOfStage s))) b s
          (appendDateAndPlace (baseUploadFile n2 u2 c2) d2 (subfolderOfStage s))) := by
      simp only [discFold, hstep1, hstep2, h1, h2, placeRoute]
    rw [hf]
  · rw [bucketSlotList_addVersioned, bucketSlotList_addVersioned, bucketSlotList_defaultVal]
    simp
  · intro hs hdot
    exact rsSetExtPdf_push _ _ hs hdot

/-- Disclosure body whose single descriptor has the dotted title `X.1`. -/
def c6CexBody : Json :=
  .obj [("result", .arr [ .obj [
    ("publishDate", .str "20210101".data),
    ("fileTitle", .str "X.1".data),
    ("filePath", .str "/a.pdf".data),
    ("companyFullName", .str "甲公司".data),
    ("fileType", .num 30),
    ("fileVersion", .num 1) ] ])]

/-- The file actually produced for `c6CexBody`. -/
def c6CexFile : UploadFile :=
  { filename := "X.120210101".data
    url := "http://static.sse.com.cn/stock/a.pdf".data
    path := "Download/甲公司/申报稿/X.pdf".data }

/-- C6 counterexample: for the dotted title `X.1` with publish date
`20210101`, `set_extension("pdf")` truncates after the title's `.`, so the
destination is `Download/甲公司/申报稿/X.pdf`, not the claimed
`Download/甲公司/申报稿/X.120210101.pdf` (the appended date is lost). -/
theorem disclosure_versioned_path_dotted_title :
    infoDisclosureFromJson c6CexBody =
        .ok { InfoDisclosure.defaultVal with
              prospectuses := { Slot3.empty with declareList := [c6CexFile] } }
      ∧ c6CexFile.path ≠ "Download/甲公司/申报稿/X.120210101.pdf".data := by
  constructor <;> decide

/-- First witness descriptor for C6: the spec scenario `fileType 30,
fileVersion 1, fileTitle "X"`, company 大汉软件股份有限公司. -/
def c6WDesc1 : Json :=
  .obj [
    ("publishDate", .str "20210101".data),
    ("fileTitle", .str "X".data),
    ("filePath", .str "/a.pdf".data),
    ("companyFullName", .str "大汉软件股份有限公司".data),
    ("fileType", .num 30),
    ("fileVersion", .num 1) ]

/-- Second witness descriptor for C6, landing in the same slot. -/
def c6WDesc2 : Json :=
  .obj [
    ("publishDate", .str "20210202".data),
    ("fileTitle", .str "Y".data),
    ("filePath", .str "/b.pdf".data),
    ("companyFullName", .str "大汉软件股份有限公司".data),
    ("fileType", .num 30),
    ("fileVersion", .num 1) ]

/-- Witness for the amended C6 at the spec's own scenario: both files
accumulate in the prospectus declaration slot and the first file's path is
`Download/大汉软件股份有限公司/申报稿/X20210101.pdf`. -/
theorem disclosure_versioned_path_and_accumulation_witness :
    infoDisclosureFromJson (.obj [("result", .arr [c6WDesc1, c6WDesc2])])
        = .ok (addVersioned (addVersioned InfoDisclosure.defaultVal .prospectus .declaration
            (appendDateAndPlace
              (baseUploadFile "X".data "/a.pdf".data "大汉软件股份有限公司".data)
              "20210101".data (subfolderOfStage .declaration))) .prospectus .declaration
            (appendDateAndPlace
              (baseUploadFile "Y".data "/b.pdf".data "大汉软件股份有限公司".data)
              "20210202".data (subfolderOfStage .declaration)))
      ∧ bucketSlotList (addVersioned (addVersioned InfoDisclosure.defaultVal .prospectus .declaration
            (appendDateAndPlace
              (baseUploadFile "X".data "/a.pdf".data "大汉软件股份有限公司".data)
              "20210101".data (subfolderOfStage .declaration))) .prospectus .declaration
            (appendDateAndPlace
              (baseUploadFile "Y".data "/b.pdf".data "大汉软件股份有限公司".data)
              "20210202".data (subfolderOfStage .declaration))) .prospectus .declaration
          = [appendDateAndPlace
              (baseUploadFile "X".data "/a.pdf".data "大汉软件股份有限公司".data)
              "20210101".data (subfolderOfStage .declaration),
             appendDateAndPlace
              (baseUploadFile "Y".data "/b.pdf".data "大汉软件股份有限公司".data)
              "20210202".data (subfolderOfStage .declaration)]
      ∧ (appendDateAndPlace
            (baseUploadFile "X".data "/a.pdf".data "大汉软件股份有限公司".data)
            "20210101".data (subfolderOfStage .declaration)).path
          = "Download/大汉软件股份有限公司/申报稿/X20210101.pdf".data := by
  obtain ⟨ha, hb, hc, hd⟩ := disclosure_versioned_path_and_accumulation c6WDesc1 c6WDesc2
    "20210101".data "X".data "/a.pdf".data "大汉软件股份有限公司".data
    "20210202".data "Y".data "/b.pdf".data "大汉软件股份有限公司".data
    .prospectus .declaration rfl rfl rfl rfl rfl rfl rfl rfl (by decide) (by decide)
  refine ⟨ha, hb, ?_⟩
  rw [hd (by decide) (by decide)]
  decide

/-- Disclosure body whose single query-and-reply descriptor has a title
matching none of the three known prefixes. -/
def c5Body : Json :=
  .obj [("result", .arr [ .obj [
    ("publishDate", .str "20210101".data),
    ("fileTitle", .str "9-9其他回复".data),
    ("filePath", .str "/q.pdf".data),
    ("companyFullName", .str "甲公司".data),
    ("fileType", .num 5),
    ("fileVersion", .num 1) ] ])]

/-- The file actually produced for `c5Body`. -/
def c5File : UploadFile :=
  { filename := "9-9其他回复".data
    url := "http://static.sse.com.cn/stock/q.pdf".data
    path := "Download/甲公司/问询与回复/9-9其他回复.pdf".data }

/-- C5 (code bug): a query-and-reply descriptor (fileType 5) whose title
matches none of the prefixes 8-1/8-2/8-3 is kept as the unclassified
`QueryReply::Other` variant, but its destination path is directly under
问询与回复, not under the documented own subfolder 问询与回复/未分组: the
fallback arm (sse.rs line 424) pushes the literal `问询与回复` instead of
`UNCLASSIFIED_SUBFOLDER`, even though the downloader creates exactly that
未分组 directory for these files (sse.rs lines 700-707). -/
theorem queryReply_unclassified_path_bug :
    infoDisclosureFromJson c5Body =
        .ok { InfoDisclosure.defaultVal with query_and_reply := [some (.Other c5File)] }
      ∧ c5File.path ≠ "Download/甲公司/问询与回复/未分组/9-9其他回复.pdf".data := by
  constructor <;> decide

/-- Model of the roster scan of `MeetingAnnounce::new` (sse.rs lines
483-495): walk `stockAudit` from index 0, reading each entry's `auditId` via
`as_str().unwrap().parse::<u32>().unwrap()` (panicking on failure), and stop
at the first entry equal to the queried id. `ok none` means the loop ran out
without a match (the source then leaves `idx = 0`). -/
def findAuditIdx : List Json → Nat → Nat → RResult (Option Nat)
  | [], _, _ => .ok none
  | e :: rest, qid, i =>
    match (e.get "auditId").asStr with
    | none => .panic "called Option::unwrap on a None value"
    | some s =>
      match parseU32 s with
      | none => .panic "called Result::unwrap on an Err value"
      | some v => if v = qid then .ok (some i) else findAuditIdx rest qid (i + 1)

/-- Spec-side roster lookup: the index of the first roster entry whose
`auditId` parses to the queried audit id. -/
def rosterMatchIdx (roster : List Json) (qid : Nat) : Option Nat :=
  match roster with
  | [] => none
  | e :: rest =>
    if ((e.get "auditId").asStr.bind parseU32) = some qid then some 0
    else (rosterMatchIdx rest qid).map (· + 1)

theorem findAuditIdx_eq (qid : Nat) (roster : List Json)
    (hwf : ∀ e ∈ roster, ∃ s v, (e.get "auditId").asStr = some s ∧ parseU32 s = some v) :
    ∀ i : Nat, findAuditIdx roster qid i = .ok ((rosterMatchIdx roster qid).map (· + i)) := by
  induction roster with
  | nil => intro i; rfl
  | cons e rest ih =>
    intro i
    obtain ⟨s, v, hs, hv⟩ := hwf e (List.mem_cons_self ..)
    have hrest : ∀ e ∈ rest, ∃ s v, (e.get "auditId").asStr = some s ∧ parseU32 s = some v :=
      fun e he => hwf e (List.mem_cons_of_mem _ he)
    simp only [findAuditIdx, hs, hv, rosterMatchIdx]
    by_cases hveq : v = qid
    · subst hveq
      simp [hv]
    · rw [if_neg hveq, if_neg (by simpa [hv] using hveq), ih hrest (i + 1)]
      cases rosterMatchIdx rest qid with
      | none => rfl
      | some j => simp [Nat.add_assoc, Nat.add_comm 1 i]

/-- Model of the per-announcement closure of `MeetingAnnounce::new` (sse.rs
lines 469-516): filename from `fileTitle`, URL as in the disclosure parser,
roster scan for the company name (falling back to index 0), destination
`Download/<company trimmed>/结果/<fileTitle>.pdf`. -/
def announceStep (x : Json) (qid : Nat) : RResult UploadFile :=
  match (x.get "fileTitle").asStr with
  | none => .err "get filename failed"
  | some name =>
    match (x.get "filePath").asStr with
    | none => .err "get file url failed"
    | some downloadUrl =>
      match (x.get "stockAudit").asArray with
      | none => .panic "called Option::unwrap on a None value"
      | some roster =>
        match findAuditIdx roster qid 0 with
        | .panic m => .panic m
        | .err m => .err m
        | .ok found =>
          match (((x.get "stockAudit").idx (found.getD 0)).get "companyFullName").asStr with
          | none => .err "get company name failed"
          | some comp =>
            .ok { filename := name
                  url := "http://static.sse.com.cn/".data ++ ("stock".data ++ downloadUrl)
                  path := rsSetExtPdf (rsPush (rsPush (rsPush "Download".data (rsTrim comp))
                            RESULT_SUBFOLDER) name) }

/-- The `try_for_each` loop of `MeetingAnnounce::new`: every parsed file is
pushed as `Some`. -/
def announceFold : List Json → Nat → List (Option UploadFile) → RResult (List (Option UploadFile))
  | [], _, acc => .ok acc
  | x :: rest, qid, acc =>
    match announceStep x qid with
    | .ok f => announceFold rest qid (acc ++ [some f])
    | .err m => .err m
    | .panic m => .panic m

/-- Model of `MeetingAnnounce` (sse.rs lines 453-455). -/
structure MeetingAnnounce where
  announcements : List (Option UploadFile)
  deriving DecidableEq, Repr

/-- Model of `MeetingAnnounce::new` (sse.rs lines 458-523) from the
deserialized JSON body onward; a failing fold is replaced by the blanket
error of line 520. -/
def meetingAnnounceNew (body : Json) (qid : Nat) : RResult MeetingAnnounce :=
  match (body.get "result").asArray with
  | none => .err "extract file array failed"
  | some files =>
    match announceFold files qid [] with
    | .ok l => .ok ⟨l⟩
    | .err _ => .err "Error in parsing path for MeetingAnnounce"
    | .panic m => .panic m

/-- C2 as amended: the announcement parser scans the embedded `stockAudit`
roster and uses the trimmed `companyFullName` of the roster entry at index
`(rosterMatchIdx roster qid).getD 0` — the first entry whose `auditId` equals
the queried audit id when one exists, but silently the first roster entry
(index 0) when no entry matches; no `CompanyNameNotFound`-style error is
raised on a failed match (the parse fails only if the entry at that index
has no `companyFullName` string). -/
theorem announce_roster_selection (x : Json) (qid : Nat) (name downloadUrl comp : Str)
    (roster : List Json)
    (hn : (x.get "fileTitle").asStr = some name)
    (hu : (x.get "filePath").asStr = some downloadUrl)
    (hr : x.get "stockAudit" = .arr roster)
    (hwf : ∀ e ∈ roster, ∃ s v, (e.get "auditId").asStr = some s ∧ parseU32 s = some v)
    (hcomp : ((roster.getD ((rosterMatchIdx roster qid).getD 0) .null).get
        "companyFullName").asStr = some comp) :
    meetingAnnounceNew (.obj [("result", .arr [x])]) qid
      = .ok ⟨[some { filename := name
                     url := "http://static.sse.com.cn/".data ++ ("stock".data ++ downloadUrl)
                     path := rsSetExtPdf (rsPush (rsPush (rsPush "Download".data (rsTrim comp))
                               RESULT_SUBFOLDER) name) }]⟩ := by
  have hstep : announceStep x qid
      = .ok { filename := name
              url := "http://static.sse.com.cn/".data ++ ("stock".data ++ downloadUrl)
              path := rsSetExtPdf (rsPush (rsPush (rsPush "Download".data (rsTrim comp))
                        RESULT_SUBFOLDER) name) } := by
    have hfind : findAuditIdx roster qid 0 = .ok ((rosterMatchIdx roster qid).map (· + 0)) :=
      findAuditIdx_eq qid roster hwf 0
    have hmap : (rosterMatchIdx roster qid).map (· + 0) = rosterMatchIdx roster qid := by
      cases rosterMatchIdx roster qid <;> simp
    have hidx : (x.get "stockAudit").idx ((rosterMatchIdx roster qid).getD 0)
        = roster.getD ((rosterMatchIdx roster qid).getD 0) .null := by
      rw [hr]
      rfl
    unfold announceStep
    rw [hn, hu, hr]
    simp only [Json.asArray, hfind, hmap]
    rw [show ((Json.arr roster).idx ((rosterMatchIdx roster qid).getD 0)).get "companyFullName"
          = ((roster.getD ((rosterMatchIdx roster qid).getD 0) .null).get "companyFullName")
        from rfl]
    rw [hcomp]
  have hbody : meetingAnnounceNew (.obj [("result", .arr [x])]) qid
      = match announceFold [x] qid [] with
        | .ok l => .ok ⟨l⟩
        | .err _ => .err "Error in parsing path for MeetingAnnounce"
        | .panic m => .panic m := rfl
  rw [hbody]
  simp only [announceFold, hstep]
  rfl

/-- Announcement body whose roster has audit ids 7 and 9, with company names
甲公司 and 乙公司. -/
def c2Body : Json :=
  .obj [("result", .arr [ .obj [
    ("fileTitle", .str "会议公告".data),
    ("filePath", .str "/m.pdf".data),
    ("stockAudit", .arr [
      .obj [("auditId", .str "7".data), ("companyFullName", .str "甲公司".data)],
      .obj [("auditId", .str "9".data), ("companyFullName", .str "乙公司".data)] ]) ] ])]

/-- C2 counterexample: querying `c2Body` for audit id 5 — which matches no
roster entry — does not fail with a `CompanyNameNotFound`-style error: the
parse succeeds and silently uses the first roster entry's company name
(甲公司) in the destination path. -/
theorem announce_no_match_uses_first_entry :
    meetingAnnounceNew c2Body 5 =
      .ok ⟨[some { filename := "会议公告".data
                   url := "http://static.sse.com.cn/stock/m.pdf".data
                   path := "Download/甲公司/结果/会议公告.pdf".data }]⟩ := by
  decide

/-- Witness for the amended C2 at `c2Body` with audit id 9: the matching
roster entry is at index 1, and its company name 乙公司 is used. -/
theorem announce_roster_selection_witness :
    meetingAnnounceNew (.obj [("result", .arr [ .obj [
        ("fileTitle", .str "会议公告".data),
        ("filePath", .str "/m.pdf".data),
        ("stockAudit", .arr [
          .obj [("auditId", .str "7".data), ("companyFullName", .str "甲公司".data)],
          .obj [("auditId", .str "9".data), ("companyFullName", .str "乙公司".data)] ]) ] ])]) 9
      = .ok ⟨[some { filename := "会议公告".data
                     url := "http://static.sse.com.cn/".data ++ ("stock".data ++ "/m.pdf".data)
                     path := rsSetExtPdf (rsPush (rsPush (rsPush "Download".data
                               (rsTrim "乙公司".data)) RESULT_SUBFOLDER) "会议公告".data) }]⟩ :=
  announce_roster_selection ( .obj [
        ("fileTitle", .str "会议公告".data),
        ("filePath", .str "/m.pdf".data),
        ("stockAudit", .arr [
          .obj [("auditId", .str "7".data), ("companyFullName", .str "甲公司".data)],
          .obj [("auditId", .str "9".data), ("companyFullName", .str "乙公司".data)] ]) ])
    9 "会议公告".data "/m.pdf".data "乙公司".data
    [ .obj [("auditId", .str "7".data), ("companyFullName", .str "甲公司".data)],
      .obj [("auditId", .str "9".data), ("companyFullName", .str "乙公司".data)] ]
    rfl rfl rfl
    (by
      intro e he
      simp only [List.mem_cons, List.not_mem_nil, or_false] at he
      rcases he with h | h <;> subst h
      · exact ⟨"7".data, 7, rfl, by decide⟩
      · exact ⟨"9".data, 9, rfl, by decide⟩)
    (by decide)

/-- Model of `ItemDetail` (sse.rs lines 527-531). -/
structure ItemDetail where
  overview : CompanyInfo
  disclosure : InfoDisclosure
  announce : MeetingAnnounce
  deriving DecidableEq, Repr

/-- Model of `process_company` (sse.rs lines 607-646) as a function of the
outcomes of its sequenced steps: the overview fetch (terminal on failure),
the disclosure and announcement fetches (both must succeed), and the download
phase. An `ItemDetail` is assembled only when all three fetches succeed; a
download failure yields an error carrying the message followed by the company
name (line 629-631); a fetch failure yields the bare company name. -/
def process_company (name : Str) (companyInfo : Option CompanyInfo)
    (disclosure : Option InfoDisclosure) (announce : Option MeetingAnnounce)
    (downloadResult : Except Str Unit) : Except Str ItemDetail :=
  match companyInfo with
  | none => .error name
  | some c =>
    match disclosure, announce with
    | some d, some a =>
      match downloadResult with
      | .ok _ => .ok ⟨c, d, a⟩
      | .error e => .error (e ++ name)
    | _, _ => .error name

/-- Model of `SseQuery` (sse.rs lines 555-562). -/
structure SseQuery where
  companies : List ItemDetail
  failed_logs : List Str
  deriving DecidableEq, Repr

/-- Model of `SseQuery::add` (sse.rs lines 572-577). -/
def SseQuery.add (q : SseQuery) (company : Except Str ItemDetail) : SseQuery :=
  match company with
  | .ok info => { q with companies := q.companies ++ [info] }
  | .error name => { q with failed_logs := q.failed_logs ++ [name] }

/-- C8: when the overview fetch succeeds but the disclosure or the
announcement fetch/parse fails, `process_company` returns a failure carrying
exactly the company name (no `ItemDetail` is built from the partial data),
and recording that outcome with `SseQuery::add` appends the name to the
failure list while leaving the success collection unchanged. -/
theorem process_company_partial_failure (name : Str) (c : CompanyInfo)
    (disclosure : Option InfoDisclosure) (announce : Option MeetingAnnounce)
    (dl : Except Str Unit) (q : SseQuery)
    (hfail : disclosure = none ∨ announce = none) :
    process_company name (some c) disclosure announce dl = .error name
      ∧ (q.add (.error name)).failed_logs = q.failed_logs ++ [name]
      ∧ (q.add (.error name)).companies = q.companies := by
  refine ⟨?_, rfl, rfl⟩
  rcases hfail with h | h <;> subst h
  · cases announce <;> rfl
  · cases disclosure <;> rfl

/-- Witness for C8: with a successful overview, a failed disclosure fetch and
a successful announcement parse, the company 丙公司 is reported as failed by
name and the aggregate keeps its successes. -/
theorem process_company_partial_failure_witness :
    process_company "丙公司".data (some c7Parsed) none (some ⟨[]⟩) (.ok ()) = .error "丙公司".data
      ∧ ((⟨[], []⟩ : SseQuery).add (.error "丙公司".data)).failed_logs = [] ++ ["丙公司".data]
      ∧ ((⟨[], []⟩ : SseQuery).add (.error "丙公司".data)).companies = [] :=
  process_company_partial_failure "丙公司".data c7Parsed none (some ⟨[]⟩) (.ok ()) ⟨[], []⟩
    (Or.inl rfl)

theorem addVersioned_query (d : InfoDisclosure) (b : BucketSel) (s : StageSel) (f : UploadFile) :
    (addVersioned d b s f).query_and_reply = d.query_and_reply := by
  cases b <;> rfl

theorem addVersioned_register (d : InfoDisclosure) (b : BucketSel) (s : StageSel) (f : UploadFile) :
    (addVersioned d b s f).register_result_or_audit_terminated
      = d.register_result_or_audit_terminated := by
  cases b <;> rfl

theorem placeRoute_preserves_someness (infos : InfoDisclosure) (r : SpecRoute)
    (f : UploadFile) (date : Str)
    (hq : ∀ o ∈ infos.query_and_reply, o.isSome = true)
    (hr : ∀ o ∈ infos.register_result_or_audit_terminated, o.isSome = true) :
    (∀ o ∈ (placeRoute infos r f date).query_and_reply, o.isSome = true)
      ∧ (∀ o ∈ (placeRoute infos r f date).register_result_or_audit_terminated, o.isSome = true) := by
  cases r with
  | versioned b s =>
    constructor
    · rw [placeRoute, addVersioned_query]
      exact hq
    · rw [placeRoute, addVersioned_register]
      exact hr
  | queryReply =>
    constructor
    · intro o ho
      simp only [placeRoute, List.mem_append, List.mem_singleton] at ho
      rcases ho with ho | ho
      · exact hq o ho
      · subst ho
        rfl
    · intro o ho
      exact hr o ho
  | registerResult =>
    constructor
    · intro o ho
      exact hq o ho
    · intro o ho
      simp only [placeRoute, List.mem_append, List.mem_singleton] at ho
      rcases ho with ho | ho
      · exact hr o ho
      · subst ho
        rfl

theorem discStep_preserves_someness (infos infos2 : InfoDisclosure) (x : Json)
    (h : discStep infos x = .ok infos2)
    (hq : ∀ o ∈ infos.query_and_reply, o.isSome = true)
    (hr : ∀ o ∈ infos.register_result_or_audit_terminated, o.isSome = true) :
    (∀ o ∈ infos2.query_and_reply, o.isSome = true)
      ∧ (∀ o ∈ infos2.register_result_or_audit_terminated, o.isSome = true) := by
  simp only [discStep] at h
  split at h
  · simp at h
  · split at h
    · simp at h
    · split at h
      · simp at h
      · split at h
        · simp at h
        · rw [routeFile_eq_placeRoute] at h
          cases hc : specClassify ((x.get "fileType").asU64) ((x.get "fileVersion").asU64) with
          | none =>
            simp [hc] at h
          | some r =>
            simp only [hc, RResult.ok.injEq] at h
            subst h
            exact placeRoute_preserves_someness _ _ _ _ hq hr

theorem discFold_preserves_someness (xs : List Json) :
    ∀ (infos infos2 : InfoDisclosure), discFold xs infos = .ok infos2 →
      (∀ o ∈ infos.query_and_reply, o.isSome = true) →
      (∀ o ∈ infos.register_result_or_audit_terminated, o.isSome = true) →
      (∀ o ∈ infos2.query_and_reply, o.isSome = true)
        ∧ (∀ o ∈ infos2.register_result_or_audit_terminated, o.isSome = true) := by
  induction xs with
  | nil =>
    intro infos infos2 h hq hr
    simp only [discFold, RResult.ok.injEq] at h
    subst h
    exact ⟨hq, hr⟩
  | cons x xs ih =>
    intro infos infos2 h hq hr
    simp only [discFold] at h
    cases hstep : discStep infos x with
    | ok i2 =>
      simp only [hstep] at h
      obtain ⟨hq2, hr2⟩ := discStep_preserves_someness infos i2 x hstep hq hr
      exact ih i2 infos2 h hq2 hr2
    | err m => simp [hstep] at h
    | panic m => simp [hstep] at h

theorem infoDisclosure_all_some (body : Json) (d : InfoDisclosure)
    (h : infoDisclosureFromJson body = .ok d) :
    (∀ o ∈ d.query_and_reply, o.isSome = true)
      ∧ (∀ o ∈ d.register_result_or_audit_terminated, o.isSome = true) := by
  simp only [infoDisclosureFromJson] at h
  split at h
  · simp at h
  · rename_i files hfiles
    split at h
    · rename_i infos hfold
      simp only [RResult.ok.injEq] at h
      subst h
      exact discFold_preserves_someness files InfoDisclosure.defaultVal infos hfold
        (by intro o ho; simp [InfoDisclosure.defaultVal] at ho)
        (by intro o ho; simp [InfoDisclosure.defaultVal] at ho)
    · simp at h
    · simp at h

theorem announceFold_all_some (xs : List Json) (qid : Nat) :
    ∀ (acc l : List (Option UploadFile)), announceFold xs qid acc = .ok l →
      (∀ o ∈ acc, o.isSome = true) → (∀ o ∈ l, o.isSome = true) := by
  induction xs with
  | nil =>
    intro acc l h hacc
    simp only [announceFold, RResult.ok.injEq] at h
    subst h
    exact hacc
  | cons x xs ih =>
    intro acc l h hacc
    simp only [announceFold] at h
    cases hstep : announceStep x qid with
    | ok f =>
      simp only [hstep] at h
      refine ih (acc ++ [some f]) l h ?_
      intro o ho
      rcases List.mem_append.mp ho with ho | ho
      · exact hacc o ho
      · simp only [List.mem_singleton] at ho
        subst ho
        rfl
    | err m => simp [hstep] at h
    | panic m => simp [hstep] at h

theorem meetingAnnounce_all_some (body : Json) (qid : Nat) (a : MeetingAnnounce)
    (h : meetingAnnounceNew body qid = .ok a) :
    ∀ o ∈ a.announcements, o.isSome = true := by
  simp only [meetingAnnounceNew] at h
  split at h
  · simp at h
  · rename_i files hfiles
    split at h
    · rename_i l hfold
      simp only [RResult.ok.injEq] at h
      subst h
      exact announceFold_all_some files qid [] l hfold (by intro o ho; simp at ho)
    · simp at h
    · simp at h

/-- Model of the element-wise `x.as_ref().unwrap()` the downloader performs
on an `Option` list: panics at the first `None`. -/
def unwrapAll {α : Type} : List (Option α) → RResult (List α)
  | [] => .ok []
  | none :: _ => .panic "called Option::unwrap on a None value"
  | some a :: rest =>
    match unwrapAll rest with
    | .ok l => .ok (a :: l)
    | .err m => .err m
    | .panic m => .panic m

theorem unwrapAll_of_all_some {α : Type} (l : List (Option α))
    (h : ∀ o ∈ l, o.isSome = true) : ∃ l2, unwrapAll l = .ok l2 := by
  induction l with
  | nil => exact ⟨[], rfl⟩
  | cons o rest ih =>
    cases o with
    | none => exact absurd (h none (List.mem_cons_self ..)) (by simp)
    | some a =>
      obtain ⟨l2, hl2⟩ := ih (fun o ho => h o (List.mem_cons_of_mem _ ho))
      exact ⟨a :: l2, by simp [unwrapAll, hl2]⟩

/-- The (url, path) pair extracted from one `QueryReply` (sse.rs lines
696-708). -/
def qrTask : QueryReply → (Str × Str)
  | .Sponsor f => (f.url, f.path)
  | .Accountant f => (f.url, f.path)
  | .Lawyer f => (f.url, f.path)
  | .Other f => (f.url, f.path)

/-- All (url, path) pairs of one versioned bucket, slots in order 0, 1, 2. -/
def slot3Tasks (t : Slot3) : List (Str × Str) :=
  (t.declareList ++ t.meetingList ++ t.registerList).map (fun f => (f.url, f.path))

/-- Model of the task-collection phase of `download_company_files` (sse.rs
lines 663-721): flatten the six versioned buckets, then unwrap every element
of `query_and_reply`, of `register_result_or_audit_terminated` and of
`announcements` (each `unwrap` panics on `None`). Directory creation and the
network/file I/O that follow are outside the model. -/
def collectDownloadTasks (company : ItemDetail) : RResult (List (Str × Str)) :=
  let d := company.disclosure
  let fixed := slot3Tasks d.prospectuses ++ slot3Tasks d.publish_sponsor
    ++ slot3Tasks d.list_sponsor ++ slot3Tasks d.audit_report
    ++ slot3Tasks d.legal_opinion ++ slot3Tasks d.others
  match unwrapAll d.query_and_reply with
  | .err m => .err m
  | .panic m => .panic m
  | .ok qrs =>
    match unwrapAll d.register_result_or_audit_terminated with
    | .err m => .err m
    | .panic m => .panic m
    | .ok regs =>
      match unwrapAll company.announce.announcements with
      | .err m => .err m
      | .panic m => .panic m
      | .ok anns =>
        .ok (fixed ++ qrs.map qrTask ++ regs.map (fun f => (f.url, f.path))
          ++ anns.map (fun f => (f.url, f.path)))

/-- C9: every `Option` element the parsers insert into
`InfoDisclosure.query_and_reply`, into
`InfoDisclosure.register_result_or_audit_terminated` and into
`MeetingAnnounce.announcements` is `Some`, so the `unwrap()` calls
`download_company_files` performs on the elements of these three lists never
hit the `None` branch: task collection succeeds for every `ItemDetail`
assembled from parser outputs. -/
theorem parsers_never_push_none (body1 body2 : Json) (qid : Nat) (c : CompanyInfo)
    (d : InfoDisclosure) (a : MeetingAnnounce)
    (hd : infoDisclosureFromJson body1 = .ok d)
    (ha : meetingAnnounceNew body2 qid = .ok a) :
    (∀ o ∈ d.query_and_reply, o.isSome = true)
      ∧ (∀ o ∈ d.register_result_or_audit_terminated, o.isSome = true)
      ∧ (∀ o ∈ a.announcements, o.isSome = true)
      ∧ ∃ ts, collectDownloadTasks ⟨c, d, a⟩ = .ok ts := by
  obtain ⟨hq, hr⟩ := infoDisclosure_all_some body1 d hd
  have hann := meetingAnnounce_all_some body2 qid a ha
  refine ⟨hq, hr, hann, ?_⟩
  obtain ⟨l1, h1⟩ := unwrapAll_of_all_some _ hq
  obtain ⟨l2, h2⟩ := unwrapAll_of_all_some _ hr
  obtain ⟨l3, h3⟩ := unwrapAll_of_all_some _ hann
  refine ⟨slot3Tasks d.prospectuses ++ slot3Tasks d.publish_sponsor
    ++ slot3Tasks d.list_sponsor ++ slot3Tasks d.audit_report
    ++ slot3Tasks d.legal_opinion ++ slot3Tasks d.others
    ++ l1.map qrTask ++ l2.map (fun f => (f.url, f.path))
    ++ l3.map (fun f => (f.url, f.path)), ?_⟩
  simp [collectDownloadTasks, h1, h2, h3]

/-- Witness for C9 at two concrete parses: a one-descriptor disclosure
response landing in query-and-reply and an empty announcement response. -/
theorem parsers_never_push_none_witness :
    (∀ o ∈ ({ InfoDisclosure.defaultVal with query_and_reply := [some (.Other c5File)]
            } : InfoDisclosure).query_and_reply, o.isSome = true)
      ∧ (∀ o ∈ ({ InfoDisclosure.defaultVal with query_and_reply := [some (.Other c5File)]
            } : InfoDisclosure).register_result_or_audit_terminated, o.isSome = true)
      ∧ (∀ o ∈ (⟨[]⟩ : MeetingAnnounce).announcements, o.isSome = true)
      ∧ ∃ ts, collectDownloadTasks
            ⟨c7Parsed,
             { InfoDisclosure.defaultVal with query_and_reply := [some (.Other c5File)] },
             ⟨[]⟩⟩ = .ok ts :=
  parsers_never_push_none c5Body (.obj [("result", .arr [])]) 1 c7Parsed
    { InfoDisclosure.defaultVal with query_and_reply := [some (.Other c5File)] } ⟨[]⟩
    (by decide) (by decide)

end SseCrawler
